import Mathlib

/-!
Verification of the platform bring-up and regulatory/power-configuration layer
of the aic8800d80 wireless driver, against `drivers/aic8800/aic8800_fdrv/rwnx_platform.h`.

The header declares the data model (firmware artifact names, the power-limit
sentinel, the region enumeration, the platform operation table) and the
signatures of the operations.  Where only the declaration of an operation is
visible (its implementation lives in a compilation unit outside the visible
sources), the operation is modelled from the specification, and the modelling
definition says so in its doc comment.
-/

namespace Rwnx

/-! ## Firmware artifact naming (rwnx_platform.h lines 18-39) -/

/-- Build selection between CONFIG_RWNX_FULLMAC and CONFIG_RWNX_FHOST
(rwnx_platform.h lines 23-27). -/
inductive MacBuild
  | fullmac
  | fhost
  deriving DecidableEq

/-- RWNX_CONFIG_FW_NAME (line 18). -/
def RWNX_CONFIG_FW_NAME : String := "rwnx_settings.ini"

/-- RWNX_PHY_CONFIG_TRD_NAME (line 19). -/
def RWNX_PHY_CONFIG_TRD_NAME : String := "rwnx_trident.ini"

/-- RWNX_PHY_CONFIG_KARST_NAME (line 20). -/
def RWNX_PHY_CONFIG_KARST_NAME : String := "rwnx_karst.ini"

/-- RWNX_AGC_FW_NAME (line 21). -/
def RWNX_AGC_FW_NAME : String := "agcram.bin"

/-- RWNX_LDPC_RAM_NAME (line 22). -/
def RWNX_LDPC_RAM_NAME : String := "ldpcram.bin"

/-- RWNX_MAC_FW_BASE_NAME: "fmacfw" under CONFIG_RWNX_FULLMAC, "fhostfw" under
CONFIG_RWNX_FHOST (lines 23-27). -/
def RWNX_MAC_FW_BASE_NAME : MacBuild → String
  | .fullmac => "fmacfw"
  | .fhost => "fhostfw"

/-- RWNX_MAC_FW_NAME: base ++ ".hex" when CONFIG_RWNX_TL4 is defined, otherwise
base ++ ".ihex" (lines 29-34).  The `tl4` flag models the CONFIG_RWNX_TL4 build
configuration. -/
def RWNX_MAC_FW_NAME (b : MacBuild) (tl4 : Bool) : String :=
  if tl4 then RWNX_MAC_FW_BASE_NAME b ++ ".hex"
  else RWNX_MAC_FW_BASE_NAME b ++ ".ihex"

/-- RWNX_MAC_FW_NAME2: the fallback name base ++ ".bin", defined only in the
non-TL4 configuration (line 33). -/
def RWNX_MAC_FW_NAME2 (b : MacBuild) (tl4 : Bool) : Option String :=
  if tl4 then none else some (RWNX_MAC_FW_BASE_NAME b ++ ".bin")

/-- RWNX_FCU_FW_NAME (line 36). -/
def RWNX_FCU_FW_NAME : String := "fcuram.bin"

/-- FW_DPDRESULT_NAME_8800DC, gated by CONFIG_DPD and not CONFIG_FORCE_DPD_CALIB
(lines 37-39). -/
def FW_DPDRESULT_NAME_8800DC (dpd forceDpdCalib : Bool) : Option String :=
  if dpd && !forceDpdCalib then some "aic_dpdresult_lite_8800dc.bin" else none

/-! ## Platform handle and rwnx_platform_get_irq (lines 112-134, 181-184) -/

/-- Model of struct pci_dev, keeping only the irq field read by the driver. -/
structure PciDev where
  irq : Nat
  deriving DecidableEq

/-- Model of struct aic_sdio_dev (only its presence matters here). -/
structure AicSdioDev where
  tag : Unit
  deriving DecidableEq

/-- Model of struct aic_usb_dev (only its presence matters here). -/
structure AicUsbDev where
  tag : Unit
  deriving DecidableEq

/-- Model of struct rwnx_plat (lines 112-134): the pci_dev pointer may be null,
which is modelled by Option; the SDIO and USB device pointers likewise. -/
structure RwnxPlat where
  pci_dev : Option PciDev
  sdiodev : Option AicSdioDev
  usbdev : Option AicUsbDev
  enabled : Bool
  wait_disconnect_cb : Bool
  deriving DecidableEq

/-- rwnx_platform_get_irq (lines 181-184): returns rwnx_plat->pci_dev->irq,
dereferencing pci_dev with no null check.  The dereference of a null pointer is
modelled as `none`: the C function is well-defined exactly on the `some` case. -/
def rwnx_platform_get_irq (plat : RwnxPlat) : Option Nat :=
  match plat.pci_dev with
  | some d => some d.irq
  | none => none

/-! ## Power-limit lookup (POWER_LEVEL_INVALID_VAL line 41;
get_powerlimit_by_chnum / get_powerlimit_by_freq declared lines 173-174) -/

/-- POWER_LEVEL_INVALID_VAL (line 41). -/
def POWER_LEVEL_INVALID_VAL : Int := 127

/-- Modelled from the spec: a PowerLimitEntry is keyed by band, region index,
channel number or frequency, and bandwidth, and carries a signed power level.
The table the lookups search is built by rwnx_plat_powerlimit_parsing, whose
implementation is not among the visible sources. -/
structure PowerLimitEntry where
  band : Nat
  r_idx : Nat
  chnum : Nat
  freq : Nat
  bw : Nat
  value : Int
  deriving DecidableEq

/-- Match predicate for the channel-number entry point: an entry applies when
its channel number, region index and bandwidth equal the requested ones. -/
def chnumMatch (chnum r_idx bw : Nat) (e : PowerLimitEntry) : Bool :=
  e.chnum == chnum && e.r_idx == r_idx && e.bw == bw

/-- Match predicate for the frequency entry point: an entry applies when its
band, frequency and region index equal the requested ones. -/
def freqMatch (band freq r_idx : Nat) (e : PowerLimitEntry) : Bool :=
  e.band == band && e.freq == freq && e.r_idx == r_idx

/-- Modelled from the spec: get_powerlimit_by_chnum (declared line 174;
implementation not among the visible sources) looks up an explicit table entry
for the requested channel number, region index and bandwidth; a matching entry
yields its stored value, and no match yields POWER_LEVEL_INVALID_VAL. -/
def get_powerlimit_by_chnum (table : List PowerLimitEntry)
    (chnum r_idx bw : Nat) : Int :=
  match table.find? (chnumMatch chnum r_idx bw) with
  | some e => e.value
  | none => POWER_LEVEL_INVALID_VAL

/-- Modelled from the spec: get_powerlimit_by_freq (declared line 173;
implementation not among the visible sources) looks up an explicit table entry
for the requested band, frequency and region index; a matching entry yields its
stored value, and no match yields POWER_LEVEL_INVALID_VAL. -/
def get_powerlimit_by_freq (table : List PowerLimitEntry)
    (band freq r_idx : Nat) : Int :=
  match table.find? (freqMatch band freq r_idx) with
  | some e => e.value
  | none => POWER_LEVEL_INVALID_VAL

/-! ## Regulatory region resolution (Regions_code lines 83-89;
get_ccode_region declared line 166) -/

/-- Regions_code (lines 83-89). -/
inductive Regions_code
  | REGIONS_SRRC
  | REGIONS_FCC
  | REGIONS_ETSI
  | REGIONS_JP
  | REGIONS_DEFAULT
  deriving DecidableEq

/-- Modelled from the spec: get_ccode_region (declared line 166; implementation
not among the visible sources) performs an exact, case-sensitive lookup of the
country-code string against a fixed table and returns REGIONS_DEFAULT when the
code is not in the table; it never fails. -/
def get_ccode_region (table : List (String × Regions_code))
    (ccode : String) : Regions_code :=
  match table.find? (fun p => p.1 == ccode) with
  | some p => p.2
  | none => Regions_code.REGIONS_DEFAULT

/-! ## Platform Controller lifecycle (struct rwnx_plat operation table,
lines 112-134; state machine modelled from the spec) -/

/-- Modelled from the spec: the lifecycle phase of a platform handle.  The
implementations behind the enable/disable/deinit operation pointers (lines
125-127) are not among the visible sources; the phases follow the documented
state machine Uninitialized, Initialized, Enabled, Disabled, Deinitialized. -/
inductive Phase
  | Uninit
  | Inited
  | EnabledPh
  | DisabledPh
  | Deinited
  deriving DecidableEq, Fintype

/-- Lifecycle operations of the Platform Controller. -/
inductive LifeOp
  | opInit
  | opEnable
  | opDisable
  | opDeinit
  deriving DecidableEq, Fintype

/-- Lifecycle errors documented by the spec. -/
inductive PlatErr
  | InvalidStateTransition
  | AlreadyEnabled
  | FatalDeinitWhileEnabled
  deriving DecidableEq, Fintype

/-- Result code of a lifecycle step. -/
inductive StepRes
  | ok
  | err (e : PlatErr)
  deriving DecidableEq, Fintype

/-- Side effects a lifecycle operation may run against the hardware. -/
inductive Effect
  | FirmwareLoad
  | ConfigureQueuesAndIrq
  | CaptureConfigRegs
  | TeardownTransfers
  | ReleaseResources
  deriving DecidableEq, Fintype

/-- Lifecycle state of a platform handle: its phase and the enabled flag of
struct rwnx_plat (line 122). -/
structure PlatSt where
  phase : Phase
  enabled : Bool
  deriving DecidableEq, Fintype

/-- The documented transition table: source phase and operation to target
phase, none when the transition is not allowed.  Disabled to Enabled is
re-entrant, disable is a no-op success when already disabled, and Deinitialized
is terminal. -/
def allowed : Phase → LifeOp → Option Phase
  | .Uninit, .opInit => some .Inited
  | .Inited, .opEnable => some .EnabledPh
  | .DisabledPh, .opEnable => some .EnabledPh
  | .EnabledPh, .opDisable => some .DisabledPh
  | .DisabledPh, .opDisable => some .DisabledPh
  | .DisabledPh, .opDeinit => some .Deinited
  | _, _ => none

/-- Modelled from the spec: one lifecycle step of the Platform Controller.
The implementations behind the enable/disable/deinit operation pointers
(lines 125-127) are not among the visible sources.  enable while the enabled
flag is set fails with AlreadyEnabled and runs no side effects; deinit while
the enabled flag is set is the fatal precondition violation and releases no
resources; any other transition from an invalid source phase fails with
InvalidStateTransition; a successful step returns the effects it ran. -/
def step (s : PlatSt) : LifeOp → StepRes × PlatSt × List Effect
  | .opInit =>
    match s.phase with
    | .Uninit => (.ok, ⟨.Inited, false⟩, [])
    | _ => (.err .InvalidStateTransition, s, [])
  | .opEnable =>
    if s.enabled then (.err .AlreadyEnabled, s, [])
    else
      match s.phase with
      | .Inited => (.ok, ⟨.EnabledPh, true⟩, [.FirmwareLoad, .ConfigureQueuesAndIrq])
      | .DisabledPh => (.ok, ⟨.EnabledPh, true⟩, [.FirmwareLoad, .ConfigureQueuesAndIrq])
      | _ => (.err .InvalidStateTransition, s, [])
  | .opDisable =>
    match s.phase with
    | .EnabledPh => (.ok, ⟨.DisabledPh, false⟩, [.CaptureConfigRegs, .TeardownTransfers])
    | .DisabledPh => (.ok, s, [])
    | _ => (.err .InvalidStateTransition, s, [])
  | .opDeinit =>
    if s.enabled then (.err .FatalDeinitWhileEnabled, s, [])
    else
      match s.phase with
      | .DisabledPh => (.ok, ⟨.Deinited, false⟩, [.ReleaseResources])
      | _ => (.err .InvalidStateTransition, s, [])

/-- The handle as first constructed: Uninitialized, enabled flag clear. -/
def initialSt : PlatSt := ⟨.Uninit, false⟩

/-- Run a sequence of lifecycle operations from the initial state, keeping only
the state (failed steps leave the state unchanged). -/
def run (ops : List LifeOp) : PlatSt :=
  ops.foldl (fun s op => (step s op).2.1) initialSt

/-- The enabled flag agrees with the phase: set exactly in the Enabled phase. -/
def flagInv (s : PlatSt) : Prop := s.enabled = (s.phase == Phase.EnabledPh)

instance (s : PlatSt) : Decidable (flagInv s) := by
  unfold flagInv
  infer_instance

/-! ## Address translation (rwnx_platform_addr lines 61-65; get_address
operation pointer lines 128-129) -/

/-- rwnx_platform_addr (lines 61-65): the two logical address spaces. -/
inductive rwnx_platform_addr
  | RWNX_ADDR_CPU
  | RWNX_ADDR_SYSTEM
  deriving DecidableEq, Fintype

/-- Declared extent of one address space: its base address and size. -/
structure AddrSpaceDecl where
  base : Nat
  size : Nat
  deriving DecidableEq

/-- The per-session address map: one declared extent per address space. -/
structure PlatAddrMap where
  cpu : AddrSpaceDecl
  system : AddrSpaceDecl
  deriving DecidableEq

/-- The declared extent of the requested address space. -/
def spaceDecl (m : PlatAddrMap) : rwnx_platform_addr → AddrSpaceDecl
  | .RWNX_ADDR_CPU => m.cpu
  | .RWNX_ADDR_SYSTEM => m.system

/-- Error of the address translator. -/
inductive TranslateErr
  | OutOfRange
  deriving DecidableEq

/-- Modelled from the spec: the get_address operation (lines 128-129;
implementations not among the visible sources) is a pure translation of
(space, offset) to base + offset for offsets within the declared size of the
space, and fails with OutOfRange beyond it, never clamping. -/
def get_address (m : PlatAddrMap) (space : rwnx_platform_addr)
    (offset : Nat) : Except TranslateErr Nat :=
  if offset < (spaceDecl m space).size then .ok ((spaceDecl m space).base + offset)
  else .error .OutOfRange

/-! ## Config register snapshot (get_config_reg operation pointer line 131) -/

/-- A single register write. -/
def writeReg (m : Nat → Nat) (a v : Nat) : Nat → Nat :=
  fun x => if x = a then v else m x

/-- Modelled from the spec: capture reads each register of the config register
list in list order, in one pass, pairing each address with its current value
(the list itself comes from get_config_reg, line 131; the capture/restore
implementations are not among the visible sources). -/
def capture (list : List Nat) (mem : Nat → Nat) : List (Nat × Nat) :=
  list.map (fun a => (a, mem a))

/-- Modelled from the spec: restore writes the captured (address, value) pairs
back in exactly the order captured, returning the final register state and the
sequence of writes performed, in order. -/
def restore (snapshot : List (Nat × Nat)) (m : Nat → Nat) :
    (Nat → Nat) × List (Nat × Nat) :=
  match snapshot with
  | [] => (m, [])
  | (a, v) :: rest =>
    let r := restore rest (writeReg m a v)
    (r.1, (a, v) :: r.2)

/-! ## User configuration parsing (rwnx_plat_userconfig_parsing declared
line 164; userconfig_info_t lines 67-81) -/

/-- Modelled from the spec: one syntactic unit of the configuration buffer.
The exact grammar is left open by the spec; what matters is the classification
into a well-formed transmit-power-table entry, a malformed entry, and a line of
an unrecognized section. -/
inductive ConfigLine
  | txpwrEntry (index : Nat) (value : Int)
  | malformed (raw : String)
  | unknownSection (raw : String)
  deriving DecidableEq

/-- Outcome of a configuration parse: the populated transmit-power table
entries and the count of recorded parse diagnostics. -/
structure ParseOutcome where
  txpwr : List (Nat × Int)
  warnings : Nat
  deriving DecidableEq

/-- One parsing step: a well-formed entry is applied to the table, a malformed
entry is skipped with a diagnostic recorded and nothing applied, a line of an
unrecognized section is ignored. -/
def parseLine (st : ParseOutcome) : ConfigLine → ParseOutcome
  | .txpwrEntry i v => ⟨st.txpwr ++ [(i, v)], st.warnings⟩
  | .malformed _ => ⟨st.txpwr, st.warnings + 1⟩
  | .unknownSection _ => st

/-- Modelled from the spec: rwnx_plat_userconfig_parsing (declared line 164;
implementation not among the visible sources) walks the buffer once, applying
well-formed entries, skipping malformed ones with a diagnostic, ignoring
unrecognized sections; it recovers locally from every malformed entry, so the
overall parse never aborts, which the Except result makes explicit. -/
def rwnx_plat_userconfig_parsing (buffer : List ConfigLine) :
    Except String ParseOutcome :=
  .ok (buffer.foldl parseLine ⟨[], 0⟩)

/-- The well-formed transmit-power entries of a buffer, in order. -/
def goodEntries (buffer : List ConfigLine) : List (Nat × Int) :=
  buffer.filterMap (fun l =>
    match l with
    | .txpwrEntry i v => some (i, v)
    | _ => none)

/-- The number of malformed entries of a buffer. -/
def countMalformed (buffer : List ConfigLine) : Nat :=
  (buffer.filter (fun l =>
    match l with
    | .malformed _ => true
    | _ => false)).length

/-! ## Helper lemmas -/

theorem step_ok_iff_allowed : ∀ (s : PlatSt) (op : LifeOp), flagInv s →
    ((step s op).1 = StepRes.ok ↔ allowed s.phase op = some (step s op).2.1.phase) := by
  decide

theorem step_deinited_terminal : ∀ (s : PlatSt) (op : LifeOp),
    s.phase = Phase.Deinited → (step s op).1 ≠ StepRes.ok := by
  decide

theorem step_invalid_source : ∀ (s : PlatSt) (op : LifeOp), flagInv s →
    allowed s.phase op = none →
    (s.phase = Phase.EnabledPh ∧ (op = LifeOp.opEnable ∨ op = LifeOp.opDeinit)) ∨
    (step s op).1 = StepRes.err PlatErr.InvalidStateTransition := by
  decide

theorem step_flagInv : ∀ (s : PlatSt) (op : LifeOp),
    flagInv s → flagInv (step s op).2.1 := by
  decide

theorem foldl_step_flagInv :
    ∀ (ops : List LifeOp) (s : PlatSt), flagInv s →
      flagInv (ops.foldl (fun s op => (step s op).2.1) s)
  | [], _, h => h
  | op :: rest, s, h => foldl_step_flagInv rest _ (step_flagInv s op h)

theorem restore_trace : ∀ (s : List (Nat × Nat)) (m : Nat → Nat),
    (restore s m).2 = s
  | [], _ => rfl
  | (a, v) :: rest, m => by
    simp [restore, restore_trace rest (writeReg m a v)]

theorem restore_val : ∀ (s : List (Nat × Nat)) (m : Nat → Nat) (a v : Nat),
    (∀ p ∈ s, p.1 = a → p.2 = v) → (m a = v ∨ ∃ p ∈ s, p.1 = a) →
    (restore s m).1 a = v := by
  intro s
  induction s with
  | nil =>
    intro m a v _ hex
    rcases hex with hm | ⟨p, hp, _⟩
    · exact hm
    · exact absurd hp (List.not_mem_nil p)
  | cons q rest ih =>
    intro m a v hall hex
    rcases q with ⟨b, w⟩
    show (restore rest (writeReg m b w)).1 a = v
    by_cases hba : b = a
    · have hwv : w = v := hall (b, w) (List.mem_cons_self _ _) hba
      refine ih (writeReg m b w) a v (fun p hp => hall p (List.mem_cons_of_mem _ hp)) ?_
      left
      simp [writeReg, hba, hwv]
    · refine ih (writeReg m b w) a v (fun p hp => hall p (List.mem_cons_of_mem _ hp)) ?_
      rcases hex with hm | ⟨p, hp, hpa⟩
      · left
        simpa [writeReg, Ne.symm hba] using hm
      · rcases List.mem_cons.mp hp with hq | hq
        · subst hq
          exact absurd hpa hba
        · right
          exact ⟨p, hq, hpa⟩

theorem parse_foldl (buffer : List ConfigLine) : ∀ st : ParseOutcome,
    buffer.foldl parseLine st =
      ⟨st.txpwr ++ goodEntries buffer, st.warnings + countMalformed buffer⟩ := by
  induction buffer with
  | nil =>
    intro st
    simp [goodEntries, countMalformed]
  | cons l rest ih =>
    intro st
    cases l with
    | txpwrEntry i v =>
      simp [parseLine, ih, goodEntries, countMalformed]
    | malformed raw =>
      simp [parseLine, ih, goodEntries, countMalformed]
      omega
    | unknownSection raw =>
      simp [parseLine, ih, goodEntries, countMalformed]

/-! ## Theorems -/

/-- Claim C9: the Firmware Image Resolver names are exactly the header's fixed
artifact naming contract: "rwnx_settings.ini", "rwnx_trident.ini",
"rwnx_karst.ini", "agcram.bin", "ldpcram.bin", main firmware base ++ ".hex"
under TL4 and primary base ++ ".ihex" with fallback base ++ ".bin" otherwise,
with base "fmacfw" or "fhostfw" per build, "fcuram.bin", and the optional
"aic_dpdresult_lite_8800dc.bin" gated by the DPD build configuration. -/
theorem C9_firmware_artifact_naming :
    RWNX_CONFIG_FW_NAME = "rwnx_settings.ini" ∧
    RWNX_PHY_CONFIG_TRD_NAME = "rwnx_trident.ini" ∧
    RWNX_PHY_CONFIG_KARST_NAME = "rwnx_karst.ini" ∧
    RWNX_AGC_FW_NAME = "agcram.bin" ∧
    RWNX_LDPC_RAM_NAME = "ldpcram.bin" ∧
    RWNX_MAC_FW_BASE_NAME MacBuild.fullmac = "fmacfw" ∧
    RWNX_MAC_FW_BASE_NAME MacBuild.fhost = "fhostfw" ∧
    (∀ b, RWNX_MAC_FW_NAME b true = RWNX_MAC_FW_BASE_NAME b ++ ".hex") ∧
    (∀ b, RWNX_MAC_FW_NAME b false = RWNX_MAC_FW_BASE_NAME b ++ ".ihex") ∧
    (∀ b, RWNX_MAC_FW_NAME2 b false = some (RWNX_MAC_FW_BASE_NAME b ++ ".bin")) ∧
    (∀ b, RWNX_MAC_FW_NAME2 b true = none) ∧
    RWNX_FCU_FW_NAME = "fcuram.bin" ∧
    FW_DPDRESULT_NAME_8800DC true false = some "aic_dpdresult_lite_8800dc.bin" ∧
    FW_DPDRESULT_NAME_8800DC true true = none ∧
    FW_DPDRESULT_NAME_8800DC false false = none ∧
    FW_DPDRESULT_NAME_8800DC false true = none := by
  refine ⟨rfl, rfl, rfl, rfl, rfl, rfl, rfl, ?_, ?_, ?_, ?_, rfl, rfl, rfl, rfl, rfl⟩ <;>
    intro b <;> cases b <;> rfl

/-- Claim C10: rwnx_platform_get_irq returns pci_dev->irq with no null check:
it is well-defined (yields the irq) exactly when pci_dev is non-null, and on a
handle whose pci_dev is null (as a non-PCI SDIO or USB handle may be) the
dereference is undefined, modelled as none. -/
theorem C10_get_irq_unchecked_pci_deref (plat : RwnxPlat) :
    (∀ d, plat.pci_dev = some d → rwnx_platform_get_irq plat = some d.irq) ∧
    (plat.pci_dev = none → rwnx_platform_get_irq plat = none) := by
  constructor
  · intro d h
    simp [rwnx_platform_get_irq, h]
  · intro h
    simp [rwnx_platform_get_irq, h]

/-- Witness for C10: a USB-transport handle with null pci_dev has an undefined
irq read, and a PCI handle yields its irq. -/
theorem C10_get_irq_unchecked_pci_deref_witness :
    rwnx_platform_get_irq ⟨none, none, some ⟨()⟩, false, false⟩ = none ∧
    rwnx_platform_get_irq ⟨some ⟨5⟩, none, none, false, false⟩ = some 5 :=
  ⟨(C10_get_irq_unchecked_pci_deref ⟨none, none, some ⟨()⟩, false, false⟩).2 rfl,
   (C10_get_irq_unchecked_pci_deref ⟨some ⟨5⟩, none, none, false, false⟩).1 ⟨5⟩ rfl⟩

/-- Claim C1: get_powerlimit_by_chnum and get_powerlimit_by_freq return exactly
POWER_LEVEL_INVALID_VAL (127) when no table entry matches the requested
combination, and exactly the matching entry's stored value otherwise. -/
theorem C1_power_limit_lookup (table : List PowerLimitEntry)
    (chnum r_idx bw band freq : Nat) :
    ((∀ e ∈ table, chnumMatch chnum r_idx bw e = false) →
      get_powerlimit_by_chnum table chnum r_idx bw = POWER_LEVEL_INVALID_VAL) ∧
    (∀ e, table.find? (chnumMatch chnum r_idx bw) = some e →
      get_powerlimit_by_chnum table chnum r_idx bw = e.value) ∧
    ((∀ e ∈ table, freqMatch band freq r_idx e = false) →
      get_powerlimit_by_freq table band freq r_idx = POWER_LEVEL_INVALID_VAL) ∧
    (∀ e, table.find? (freqMatch band freq r_idx) = some e →
      get_powerlimit_by_freq table band freq r_idx = e.value) := by
  refine ⟨?_, ?_, ?_, ?_⟩
  · intro h
    have hn : table.find? (chnumMatch chnum r_idx bw) = none :=
      List.find?_eq_none.mpr (fun x hx => by simp [h x hx])
    simp [get_powerlimit_by_chnum, hn]
  · intro e he
    simp [get_powerlimit_by_chnum, he]
  · intro h
    have hn : table.find? (freqMatch band freq r_idx) = none :=
      List.find?_eq_none.mpr (fun x hx => by simp [h x hx])
    simp [get_powerlimit_by_freq, hn]
  · intro e he
    simp [get_powerlimit_by_freq, he]

/-- Witness for C1: on a one-entry table (band 0, region 1, channel 6,
frequency 2437, bandwidth 20, value 17), a non-matching channel and a
non-matching frequency yield the sentinel 127, and the matching queries yield
17 exactly. -/
theorem C1_power_limit_lookup_witness :
    get_powerlimit_by_chnum [⟨0, 1, 6, 2437, 20, 17⟩] 7 1 20 = POWER_LEVEL_INVALID_VAL ∧
    get_powerlimit_by_chnum [⟨0, 1, 6, 2437, 20, 17⟩] 6 1 20 = 17 ∧
    get_powerlimit_by_freq [⟨0, 1, 6, 2437, 20, 17⟩] 0 5180 1 = POWER_LEVEL_INVALID_VAL ∧
    get_powerlimit_by_freq [⟨0, 1, 6, 2437, 20, 17⟩] 0 2437 1 = 17 := by
  refine ⟨?_, ?_, ?_, ?_⟩
  · exact (C1_power_limit_lookup [⟨0, 1, 6, 2437, 20, 17⟩] 7 1 20 0 5180).1 (by decide)
  · exact (C1_power_limit_lookup [⟨0, 1, 6, 2437, 20, 17⟩] 6 1 20 0 5180).2.1
      ⟨0, 1, 6, 2437, 20, 17⟩ (by decide)
  · exact (C1_power_limit_lookup [⟨0, 1, 6, 2437, 20, 17⟩] 6 1 20 0 5180).2.2.1 (by decide)
  · exact (C1_power_limit_lookup [⟨0, 1, 6, 2437, 20, 17⟩] 6 1 20 0 2437).2.2.2
      ⟨0, 1, 6, 2437, 20, 17⟩ (by decide)

/-- Claim C2: get_ccode_region is an exact, case-sensitive lookup that always
returns a value of the Regions_code enumeration: a code found in the table maps
to its stored RegionCode, any other code maps to REGIONS_DEFAULT, and the
operation never fails for any input string. -/
theorem C2_region_resolution (table : List (String × Regions_code))
    (ccode : String) :
    (get_ccode_region table ccode = Regions_code.REGIONS_SRRC ∨
      get_ccode_region table ccode = Regions_code.REGIONS_FCC ∨
      get_ccode_region table ccode = Regions_code.REGIONS_ETSI ∨
      get_ccode_region table ccode = Regions_code.REGIONS_JP ∨
      get_ccode_region table ccode = Regions_code.REGIONS_DEFAULT) ∧
    (∀ p, table.find? (fun q => q.1 == ccode) = some p →
      get_ccode_region table ccode = p.2) ∧
    ((∀ p ∈ table, p.1 ≠ ccode) →
      get_ccode_region table ccode = Regions_code.REGIONS_DEFAULT) := by
  refine ⟨?_, ?_, ?_⟩
  · rcases hr : get_ccode_region table ccode <;> simp
  · intro p hp
    simp [get_ccode_region, hp]
  · intro h
    have hn : table.find? (fun q => q.1 == ccode) = none :=
      List.find?_eq_none.mpr (fun x hx => by simp [h x hx])
    simp [get_ccode_region, hn]

/-- Witness for C2: with the table mapping "CN" to SRRC and "US" to FCC, the
code "US" resolves to FCC and the lower-case "us" (case-sensitive miss) and the
unknown "ZZ" resolve to REGIONS_DEFAULT. -/
theorem C2_region_resolution_witness :
    get_ccode_region [("CN", Regions_code.REGIONS_SRRC), ("US", Regions_code.REGIONS_FCC)]
      "US" = Regions_code.REGIONS_FCC ∧
    get_ccode_region [("CN", Regions_code.REGIONS_SRRC), ("US", Regions_code.REGIONS_FCC)]
      "us" = Regions_code.REGIONS_DEFAULT ∧
    get_ccode_region [("CN", Regions_code.REGIONS_SRRC), ("US", Regions_code.REGIONS_FCC)]
      "ZZ" = Regions_code.REGIONS_DEFAULT := by
  refine ⟨?_, ?_, ?_⟩
  · exact (C2_region_resolution
      [("CN", Regions_code.REGIONS_SRRC), ("US", Regions_code.REGIONS_FCC)] "US").2.1
      ("US", Regions_code.REGIONS_FCC) (by decide)
  · exact (C2_region_resolution
      [("CN", Regions_code.REGIONS_SRRC), ("US", Regions_code.REGIONS_FCC)] "us").2.2
      (by decide)
  · exact (C2_region_resolution
      [("CN", Regions_code.REGIONS_SRRC), ("US", Regions_code.REGIONS_FCC)] "ZZ").2.2
      (by decide)

/-- Claim C3: the lifecycle respects the state machine Uninitialized to
Initialized to Enabled to Disabled to Deinitialized, with Disabled to Enabled
re-entrant, Deinitialized terminal, transitions from an invalid source state
failing with InvalidStateTransition (apart from the two specially documented
enabled-flag misuses, AlreadyEnabled and the fatal deinit), and in every state
reachable from the initial state the enabled flag is true exactly in the
Enabled phase. -/
theorem C3_lifecycle_state_machine (s : PlatSt) (op : LifeOp)
    (ops : List LifeOp) (hs : flagInv s) :
    ((step s op).1 = StepRes.ok ↔ allowed s.phase op = some (step s op).2.1.phase) ∧
    (s.phase = Phase.Deinited → (step s op).1 ≠ StepRes.ok) ∧
    (allowed s.phase op = none →
      (s.phase = Phase.EnabledPh ∧ (op = LifeOp.opEnable ∨ op = LifeOp.opDeinit)) ∨
      (step s op).1 = StepRes.err PlatErr.InvalidStateTransition) ∧
    ((run ops).enabled = true ↔ (run ops).phase = Phase.EnabledPh) := by
  refine ⟨step_ok_iff_allowed s op hs, step_deinited_terminal s op,
    step_invalid_source s op hs, ?_⟩
  have hf : flagInv (run ops) := foldl_step_flagInv ops initialSt (by decide)
  rw [show (run ops).enabled = ((run ops).phase == Phase.EnabledPh) from hf]
  simp

/-- Witness for C3: enable from the Initialized state succeeds, the transition
is the documented one, and after the run init then enable the enabled flag is
true exactly because the phase is Enabled. -/
theorem C3_lifecycle_state_machine_witness :
    (step ⟨Phase.Inited, false⟩ LifeOp.opEnable).1 = StepRes.ok ∧
    ((run [LifeOp.opInit, LifeOp.opEnable]).enabled = true ↔
      (run [LifeOp.opInit, LifeOp.opEnable]).phase = Phase.EnabledPh) :=
  ⟨(C3_lifecycle_state_machine ⟨Phase.Inited, false⟩ LifeOp.opEnable []
      (by decide)).1.mpr (by decide),
   (C3_lifecycle_state_machine ⟨Phase.Inited, false⟩ LifeOp.opEnable
      [LifeOp.opInit, LifeOp.opEnable] (by decide)).2.2.2⟩

/-- Claim C4: enable on a handle whose enabled flag is already true fails with
AlreadyEnabled, runs no side effects (no firmware load, no queue or interrupt
configuration), and leaves the handle state unchanged. -/
theorem C4_enable_already_enabled (s : PlatSt) (h : s.enabled = true) :
    (step s LifeOp.opEnable).1 = StepRes.err PlatErr.AlreadyEnabled ∧
    (step s LifeOp.opEnable).2.1 = s ∧
    (step s LifeOp.opEnable).2.2 = [] := by
  refine ⟨?_, ?_, ?_⟩ <;> simp [step, h]

/-- Witness for C4: on the enabled handle, enable fails with AlreadyEnabled,
changes nothing and runs nothing. -/
theorem C4_enable_already_enabled_witness :
    (step ⟨Phase.EnabledPh, true⟩ LifeOp.opEnable).1 = StepRes.err PlatErr.AlreadyEnabled ∧
    (step ⟨Phase.EnabledPh, true⟩ LifeOp.opEnable).2.1 = ⟨Phase.EnabledPh, true⟩ ∧
    (step ⟨Phase.EnabledPh, true⟩ LifeOp.opEnable).2.2 = [] :=
  C4_enable_already_enabled ⟨Phase.EnabledPh, true⟩ rfl

/-- Claim C5: deinit requires the enabled flag to be false; deinit while
enabled fails with the fatal error, releases no resources and leaves the handle
valid and unchanged, while deinit from the correctly disabled state succeeds
and is what releases the resources. -/
theorem C5_deinit_requires_disabled (s s2 : PlatSt) (h : s.enabled = true)
    (h2 : s2.enabled = false) (h3 : s2.phase = Phase.DisabledPh) :
    (step s LifeOp.opDeinit).1 = StepRes.err PlatErr.FatalDeinitWhileEnabled ∧
    (step s LifeOp.opDeinit).2.1 = s ∧
    Effect.ReleaseResources ∉ (step s LifeOp.opDeinit).2.2 ∧
    (step s2 LifeOp.opDeinit).1 = StepRes.ok ∧
    Effect.ReleaseResources ∈ (step s2 LifeOp.opDeinit).2.2 := by
  refine ⟨?_, ?_, ?_, ?_, ?_⟩ <;> simp [step, h, h2, h3]

/-- Witness for C5: deinit on the enabled handle fails fatally with no release,
and deinit on the disabled handle succeeds and releases the resources. -/
theorem C5_deinit_requires_disabled_witness :
    (step ⟨Phase.EnabledPh, true⟩ LifeOp.opDeinit).1 =
      StepRes.err PlatErr.FatalDeinitWhileEnabled ∧
    (step ⟨Phase.EnabledPh, true⟩ LifeOp.opDeinit).2.1 = ⟨Phase.EnabledPh, true⟩ ∧
    Effect.ReleaseResources ∉ (step ⟨Phase.EnabledPh, true⟩ LifeOp.opDeinit).2.2 ∧
    (step ⟨Phase.DisabledPh, false⟩ LifeOp.opDeinit).1 = StepRes.ok ∧
    Effect.ReleaseResources ∈ (step ⟨Phase.DisabledPh, false⟩ LifeOp.opDeinit).2.2 :=
  C5_deinit_requires_disabled ⟨Phase.EnabledPh, true⟩ ⟨Phase.DisabledPh, false⟩
    rfl rfl rfl

/-- Claim C6: for every offset within the declared size of the requested
address space, get_address yields exactly base + offset (total and, being a
pure function of its inputs, deterministic with no state change), and for
every offset beyond the declared size it fails with OutOfRange, never
clamping. -/
theorem C6_translate_total_or_out_of_range (m : PlatAddrMap)
    (space : rwnx_platform_addr) (offset : Nat) :
    (offset < (spaceDecl m space).size →
      get_address m space offset = Except.ok ((spaceDecl m space).base + offset)) ∧
    (¬ offset < (spaceDecl m space).size →
      get_address m space offset = Except.error TranslateErr.OutOfRange) := by
  constructor <;> intro h <;> simp [get_address, h]

/-- Witness for C6: in a map whose CPU space has base 4096 and size 16, offset
3 translates to 4099 and offset 16 is OutOfRange. -/
theorem C6_translate_total_or_out_of_range_witness :
    get_address ⟨⟨4096, 16⟩, ⟨65536, 8⟩⟩ rwnx_platform_addr.RWNX_ADDR_CPU 3 =
      Except.ok 4099 ∧
    get_address ⟨⟨4096, 16⟩, ⟨65536, 8⟩⟩ rwnx_platform_addr.RWNX_ADDR_CPU 16 =
      Except.error TranslateErr.OutOfRange :=
  ⟨(C6_translate_total_or_out_of_range ⟨⟨4096, 16⟩, ⟨65536, 8⟩⟩
      rwnx_platform_addr.RWNX_ADDR_CPU 3).1 (by decide),
   (C6_translate_total_or_out_of_range ⟨⟨4096, 16⟩, ⟨65536, 8⟩⟩
      rwnx_platform_addr.RWNX_ADDR_CPU 16).2 (by decide)⟩

/-- Claim C7: capture reads the registers of the config register list in list
order in one pass (the captured addresses are the list itself, in order),
restore writes back exactly the captured (address, value) pairs in exactly the
captured order, and after a restore every register of the list holds the value
captured before the disable, whatever happened to the registers in between. -/
theorem C7_capture_restore_order (l : List Nat) (mem mem2 : Nat → Nat) :
    (capture l mem).map Prod.fst = l ∧
    (restore (capture l mem) mem2).2 = capture l mem ∧
    (∀ a ∈ l, (restore (capture l mem) mem2).1 a = mem a) := by
  refine ⟨?_, restore_trace (capture l mem) mem2, ?_⟩
  · unfold capture
    rw [List.map_map]
    exact List.map_id l
  · intro a ha
    refine restore_val (capture l mem) mem2 a (mem a) ?_ ?_
    · intro p hp hpa
      rcases List.mem_map.mp hp with ⟨x, _, rfl⟩
      simpa using congrArg mem hpa
    · right
      exact ⟨(a, mem a), List.mem_map_of_mem _ ha, rfl⟩

/-- Witness for C7: capturing registers 10 and 20 of the memory a maps to
a + 1, then restoring over the zeroed memory, reads the addresses in order,
writes the captured pairs in order, and brings register 10 back to 11. -/
theorem C7_capture_restore_order_witness :
    (capture [10, 20] (fun a => a + 1)).map Prod.fst = [10, 20] ∧
    (restore (capture [10, 20] (fun a => a + 1)) (fun _ => 0)).2 =
      capture [10, 20] (fun a => a + 1) ∧
    (restore (capture [10, 20] (fun a => a + 1)) (fun _ => 0)).1 10 = 11 :=
  ⟨(C7_capture_restore_order [10, 20] (fun a => a + 1) (fun _ => 0)).1,
   (C7_capture_restore_order [10, 20] (fun a => a + 1) (fun _ => 0)).2.1,
   (C7_capture_restore_order [10, 20] (fun a => a + 1) (fun _ => 0)).2.2 10
     (by simp)⟩

/-- Claim C8: on every configuration buffer the parse terminates with ok
(never aborting), populating exactly the well-formed transmit-power entries in
order (a malformed entry is skipped, applying nothing, so no field is left
partially overwritten, and unrecognized sections are ignored) while recording
one diagnostic per malformed entry. -/
theorem C8_parse_skips_malformed (buffer : List ConfigLine) :
    rwnx_plat_userconfig_parsing buffer =
      Except.ok ⟨goodEntries buffer, countMalformed buffer⟩ := by
  simp [rwnx_plat_userconfig_parsing, parse_foldl buffer ⟨[], 0⟩]

end Rwnx
